import Mathlib

set_option autoImplicit false
set_option linter.unusedVariables false
set_option linter.unnecessarySimpa false

/-!
Shallow embedding of the HTSP session engine implemented in
src/python_htsp/htsp_session.py.

Mapping conventions:
- Python message dictionaries become association lists from string keys to
  `Value` (int, str or binary blob), preserving insertion order; dictionary
  assignment is `setKey` (replace in place or append).
- Entity caches (dicts keyed by entity identifier values) become association
  lists from `Value` to `Msg` with `lookupAssoc`, `setAssoc`, `eraseAssoc`.
- Exceptions become the `PyError` type; a function that can raise returns
  `Except PyError` together with the state reached at the raise point.
- The socket is modelled by a list of incoming `StreamItem`s (a message, or an
  external keyboard interrupt delivered at a receive point) plus a `sent` log
  of outgoing messages inside the session state.  An exhausted input list
  stands for a receive call that would block forever and is reported as the
  distinguished error `PyError.blocked`.
- Observer callbacks registered via `monitor` are modelled as `Observer`
  values: each records its invocation in the session `notify_log` and may, as
  its side effect, remove itself from the callback list (the self-removal use
  case); a plain observer does nothing besides being recorded.
-/

/-- Value carried in a message field: Python int, str or binary blob. -/
inductive Value where
  | int : Int → Value
  | str : String → Value
  | bin : String → Value
  deriving DecidableEq, Repr

/-- Python truthiness of a field value (`if value:`): zero ints and empty
strings and blobs are falsy. -/
def Value.truthy : Value → Bool
  | Value.int n => n ≠ 0
  | Value.str s => s ≠ ""
  | Value.bin b => b ≠ ""

/-- A message is an insertion-ordered dictionary from field names to values. -/
abbrev Msg := List (String × Value)

/-- Dictionary lookup `m.get(k, None)` / `m[k]` presence test. -/
def msgGet : Msg → String → Option Value
  | [], _ => none
  | (k2, v) :: rest, k => if k2 = k then some v else msgGet rest k

/-- Dictionary assignment `m[k] = v`: replace the binding in place, or append
a new binding at the end. -/
def setKey : Msg → String → Value → Msg
  | [], k, v => [(k, v)]
  | (k2, v2) :: rest, k, v =>
      if k2 = k then (k, v) :: rest else (k2, v2) :: setKey rest k v

/-- Lookup in an entity cache keyed by identifier values. -/
def lookupAssoc : List (Value × Msg) → Value → Option Msg
  | [], _ => none
  | (k2, v) :: rest, k => if k2 = k then some v else lookupAssoc rest k

/-- Assignment into an entity cache (`cache[id] = entity`). -/
def setAssoc : List (Value × Msg) → Value → Msg → List (Value × Msg)
  | [], k, v => [(k, v)]
  | (k2, v2) :: rest, k, v =>
      if k2 = k then (k, v) :: rest else (k2, v2) :: setAssoc rest k v

/-- Removal from an entity cache (`cache.pop(id, None)`, key present case). -/
def eraseAssoc : List (Value × Msg) → Value → List (Value × Msg)
  | [], _ => []
  | (k2, v2) :: rest, k =>
      if k2 = k then rest else (k2, v2) :: eraseAssoc rest k

/-- Exceptions that the modelled code can raise.  `keyError` is the Python
LookupError subclass raised by a failed dictionary lookup and carries the
missing key; `busy` is the generic Exception raised on a second in-flight
command; `outOfSequence` is the generic Exception raised on a reply sequence
mismatch; `blocked` marks a receive on the exhausted model stream (a call that
would block forever in the real program). -/
inductive PyError where
  | keyError : Value → PyError
  | typeError : PyError
  | valueError : PyError
  | attributeError : PyError
  | busy : PyError
  | outOfSequence : PyError
  | protocolVersion : PyError
  | requestError : PyError
  | keyboardInterrupt : PyError
  | blocked : PyError
  deriving DecidableEq, Repr

/-- Behaviour of an observer callback when invoked. -/
inductive ObsAction where
  | noop
  | removeSelf
  deriving DecidableEq, Repr

/-- An observer callback registered with the session. -/
structure Observer where
  id : Nat
  action : ObsAction
  deriving DecidableEq, Repr

/-- One recorded observer invocation: which observer ran, with which verb
value and which resulting entity argument. -/
structure NotifyRecord where
  obs : Nat
  verb : Value
  entity : Option Msg
  deriving DecidableEq, Repr

/-- One item arriving from the server connection: a decoded message, or an
external keyboard interrupt delivered while blocked in a receive call. -/
inductive StreamItem where
  | msg : Msg → StreamItem
  | interrupt : StreamItem
  deriving DecidableEq, Repr

/-- State of an `HTSPSession` object, as initialised by `__init__` and
mutated by the methods modelled below.  `sent` is the log of messages written
to the socket and `notify_log` the log of observer invocations. -/
structure SessionState where
  name : String
  user : Option String
  digest : Option String
  connected : Bool
  hello_msg : Option Msg
  sequence : Int
  command_pending : Bool
  initial_data : Bool
  tags : List (Value × Msg)
  channels : List (Value × Msg)
  events : Option (List (Value × Msg))
  dvr_entries : List (Value × Msg)
  auto_record_entries : List (Value × Msg)
  callbacks : List Observer
  sent : List Msg
  notify_log : List NotifyRecord
  deriving DecidableEq, Repr

/-- Initial session state built by `HTSPSession.__init__` (the transport
address is out of scope). -/
def initSession (name : String) : SessionState :=
  { name := name
    user := none
    digest := none
    connected := false
    hello_msg := none
    sequence := 0
    command_pending := false
    initial_data := false
    tags := []
    channels := []
    events := none
    dvr_entries := []
    auto_record_entries := []
    callbacks := []
    sent := []
    notify_log := [] }

/-- Merge of `_update_reponse(old, new)`: for every field of the incoming
message, overwrite the stored field only when the incoming value is truthy. -/
def update_reponse (old new : Msg) : Msg :=
  new.foldl (fun acc kv => if Value.truthy kv.2 then setKey acc kv.1 kv.2 else acc) old

/-- Handler `_handle_initialSyncCompleted`. -/
def handle_initialSyncCompleted (s : SessionState) (m : Msg) :
    Except PyError (SessionState × Option Msg) :=
  Except.ok ({ s with initial_data := true }, none)

/-- Handler `_handle_tagAdd`: insert the tag under `message[tagId]`. -/
def handle_tagAdd (s : SessionState) (m : Msg) :
    Except PyError (SessionState × Option Msg) :=
  match msgGet m "tagId" with
  | none => Except.error (PyError.keyError (Value.str "tagId"))
  | some tid => Except.ok ({ s with tags := setAssoc s.tags tid m }, some m)

/-- Handler `_handle_tagUpdate`: look up the cached tag (a failed lookup
raises KeyError) and merge the update into it. -/
def handle_tagUpdate (s : SessionState) (m : Msg) :
    Except PyError (SessionState × Option Msg) :=
  match msgGet m "tagId" with
  | none => Except.error (PyError.keyError (Value.str "tagId"))
  | some tid =>
      match lookupAssoc s.tags tid with
      | none => Except.error (PyError.keyError tid)
      | some old =>
          Except.ok ({ s with tags := setAssoc s.tags tid (update_reponse old m) },
            some (update_reponse old m))

/-- Handler `_handle_channelAdd`. -/
def handle_channelAdd (s : SessionState) (m : Msg) :
    Except PyError (SessionState × Option Msg) :=
  match msgGet m "channelId" with
  | none => Except.error (PyError.keyError (Value.str "channelId"))
  | some cid => Except.ok ({ s with channels := setAssoc s.channels cid m }, some m)

/-- Handler `_handle_channelUpdate`. -/
def handle_channelUpdate (s : SessionState) (m : Msg) :
    Except PyError (SessionState × Option Msg) :=
  match msgGet m "channelId" with
  | none => Except.error (PyError.keyError (Value.str "channelId"))
  | some cid =>
      match lookupAssoc s.channels cid with
      | none => Except.error (PyError.keyError cid)
      | some old =>
          Except.ok ({ s with channels := setAssoc s.channels cid (update_reponse old m) },
            some (update_reponse old m))

/-- Handler `_handle_eventAdd`: stored only when the event map is enabled. -/
def handle_eventAdd (s : SessionState) (m : Msg) :
    Except PyError (SessionState × Option Msg) :=
  match s.events with
  | none => Except.ok (s, some m)
  | some evs =>
      match msgGet m "eventId" with
      | none => Except.error (PyError.keyError (Value.str "eventId"))
      | some eid => Except.ok ({ s with events := some (setAssoc evs eid m) }, some m)

/-- Handler `_handle_eventDelete`: a missing event or a disabled event map is
tolerated (logged only). -/
def handle_eventDelete (s : SessionState) (m : Msg) :
    Except PyError (SessionState × Option Msg) :=
  match s.events with
  | none => Except.ok (s, none)
  | some evs =>
      match msgGet m "eventId" with
      | none => Except.error (PyError.keyError (Value.str "eventId"))
      | some eid =>
          match lookupAssoc evs eid with
          | some old => Except.ok ({ s with events := some (eraseAssoc evs eid) }, some old)
          | none => Except.ok (s, none)

/-- Handler `_handle_dvrEntryAdd`. -/
def handle_dvrEntryAdd (s : SessionState) (m : Msg) :
    Except PyError (SessionState × Option Msg) :=
  match msgGet m "id" with
  | none => Except.error (PyError.keyError (Value.str "id"))
  | some eid => Except.ok ({ s with dvr_entries := setAssoc s.dvr_entries eid m }, some m)

/-- Handler `_handle_dvrEntryDelete`: removal of an absent entry is silently
tolerated and leaves the cache unchanged. -/
def handle_dvrEntryDelete (s : SessionState) (m : Msg) :
    Except PyError (SessionState × Option Msg) :=
  match msgGet m "id" with
  | none => Except.error (PyError.keyError (Value.str "id"))
  | some eid =>
      match lookupAssoc s.dvr_entries eid with
      | some old =>
          Except.ok ({ s with dvr_entries := eraseAssoc s.dvr_entries eid }, some old)
      | none => Except.ok (s, none)

/-- Handler `_handle_dvrEntryUpdate`: a lookup of an absent entry raises
KeyError, which propagates to the caller. -/
def handle_dvrEntryUpdate (s : SessionState) (m : Msg) :
    Except PyError (SessionState × Option Msg) :=
  match msgGet m "id" with
  | none => Except.error (PyError.keyError (Value.str "id"))
  | some eid =>
      match lookupAssoc s.dvr_entries eid with
      | none => Except.error (PyError.keyError eid)
      | some old =>
          Except.ok
            ({ s with dvr_entries := setAssoc s.dvr_entries eid (update_reponse old m) },
             some (update_reponse old m))

/-- Handler `_handle_autorecEntryAdd`. -/
def handle_autorecEntryAdd (s : SessionState) (m : Msg) :
    Except PyError (SessionState × Option Msg) :=
  match msgGet m "id" with
  | none => Except.error (PyError.keyError (Value.str "id"))
  | some eid =>
      Except.ok ({ s with auto_record_entries := setAssoc s.auto_record_entries eid m }, some m)

/-- Handler `_handle_autorecEntryUpdate`. -/
def handle_autorecEntryUpdate (s : SessionState) (m : Msg) :
    Except PyError (SessionState × Option Msg) :=
  match msgGet m "id" with
  | none => Except.error (PyError.keyError (Value.str "id"))
  | some eid =>
      match lookupAssoc s.auto_record_entries eid with
      | none => Except.error (PyError.keyError eid)
      | some old =>
          Except.ok
            ({ s with auto_record_entries :=
                setAssoc s.auto_record_entries eid (update_reponse old m) },
             some (update_reponse old m))

/-- Dispatch of `_handleMessage`: route by the `method` field to the matching
`_handle_*` method; messages without a method field or with an unrecognised
method name are logged and ignored.  A non-string method value makes the
Python 2 string concatenation building the handler name raise TypeError. -/
def handleMessage (s : SessionState) (m : Msg) :
    Except PyError (SessionState × Option Msg) :=
  match msgGet m "method" with
  | none => Except.ok (s, none)
  | some (Value.str "initialSyncCompleted") => handle_initialSyncCompleted s m
  | some (Value.str "tagAdd") => handle_tagAdd s m
  | some (Value.str "tagUpdate") => handle_tagUpdate s m
  | some (Value.str "channelAdd") => handle_channelAdd s m
  | some (Value.str "channelUpdate") => handle_channelUpdate s m
  | some (Value.str "eventAdd") => handle_eventAdd s m
  | some (Value.str "eventDelete") => handle_eventDelete s m
  | some (Value.str "dvrEntryAdd") => handle_dvrEntryAdd s m
  | some (Value.str "dvrEntryDelete") => handle_dvrEntryDelete s m
  | some (Value.str "dvrEntryUpdate") => handle_dvrEntryUpdate s m
  | some (Value.str "autorecEntryAdd") => handle_autorecEntryAdd s m
  | some (Value.str "autorecEntryUpdate") => handle_autorecEntryUpdate s m
  | some (Value.str _) => Except.ok (s, none)
  | some _ => Except.error PyError.typeError

/-- Iteration of the Python for-loop inside `_notify` over the callback list,
with the loop index made explicit because a callback may remove itself from
the list mid-iteration (`list.remove` during iteration).  The `fuel` argument
only bounds the recursion: the loop advances the index by one per step while
the list never grows, so at most `length` steps run and any initial fuel of at
least `length + 1` computes the exact Python behaviour. -/
def notifyLoopF : Nat → List Observer → Nat → Value → Option Msg →
    List NotifyRecord → List Observer × List NotifyRecord
  | 0, cbs, _, _, _, log => (cbs, log)
  | fuel + 1, cbs, i, verb, n, log =>
      if h : i < cbs.length then
        let o := cbs.get ⟨i, h⟩
        let log2 := log ++ [⟨o.id, verb, n⟩]
        let cbs2 := if o.action = ObsAction.removeSelf then cbs.erase o else cbs
        notifyLoopF fuel cbs2 (i + 1) verb n log2
      else (cbs, log)

/-- Model of `_notify(message, notification)`: read the verb from the message
(a missing method field raises KeyError) and invoke every callback in list
order with `(verb, notification)`. -/
def notify (s : SessionState) (m : Msg) (n : Option Msg) : Except PyError SessionState :=
  match msgGet m "method" with
  | none => Except.error (PyError.keyError (Value.str "method"))
  | some verb =>
      Except.ok { s with
        callbacks := (notifyLoopF (s.callbacks.length + 1) s.callbacks 0 verb n s.notify_log).1,
        notify_log := (notifyLoopF (s.callbacks.length + 1) s.callbacks 0 verb n s.notify_log).2 }

/-- Body shared by the monitor loop and the drain loop of `_invoke_command`:
`n = _handleMessage(message)` followed by `_notify(message, n)`.  On an
exception the returned state is the state reached at the raise point. -/
def dispatch_and_notify (s : SessionState) (m : Msg) : SessionState × Option PyError :=
  match handleMessage s m with
  | Except.error e => (s, some e)
  | Except.ok (s1, n) =>
      match notify s1 m n with
      | Except.error e => (s1, some e)
      | Except.ok s2 => (s2, none)

/-- Result of the receive loop of `_invoke_command`: the held queue of
messages lacking a `seq` field in arrival order, then the first message
carrying a `seq` field together with that sequence value and the remaining
stream, or a failure (interrupt or exhausted model stream). -/
inductive RecvOut where
  | found : List Msg → Msg → Value → List StreamItem → RecvOut
  | failed : PyError → RecvOut
  deriving DecidableEq, Repr

/-- Receive loop of `_invoke_command`: keep receiving, appending every message
without a `seq` field to a holding queue, until a message carries `seq`. -/
def recv_loop : List StreamItem → List Msg → RecvOut
  | [], _ => RecvOut.failed PyError.blocked
  | StreamItem.interrupt :: _, _ => RecvOut.failed PyError.keyboardInterrupt
  | StreamItem.msg m :: rest, queue =>
      match msgGet m "seq" with
      | some v => RecvOut.found queue m v rest
      | none => recv_loop rest (queue ++ [m])

/-- Drain loop at the end of `_invoke_command`: route every held message
through `_handleMessage` and `_notify` in arrival order; an exception stops
the drain and propagates, keeping the state reached so far. -/
def drain : SessionState → List Msg → SessionState × Option PyError
  | s, [] => (s, none)
  | s, m :: ms =>
      match dispatch_and_notify s m with
      | (s1, none) => drain s1 ms
      | (s1, some e) => (s1, some e)

/-- Outgoing message built by `_send(method, args)` on top of the already
sequence-tagged arguments: add the method name, then the username and the
digest when they are set and non-empty (Python truthiness of the fields). -/
def mkSendMsg (user digest : Option String) (args : Msg) (method : String) : Msg :=
  let a1 := setKey args "method" (Value.str method)
  let a2 := match user with
    | some u => if u = "" then a1 else setKey a1 "username" (Value.str u)
    | none => a1
  match digest with
  | some d => if d = "" then a2 else setKey a2 "digest" (Value.bin d)
  | none => a2

/-- Model of `_invoke_command(method, args)` against an incoming stream.
Faithful to the source order: raise Busy while a command is pending; set the
pending flag; tag the arguments with the current sequence number and send;
receive until a sequence-tagged message arrives, holding the others; raise on
a sequence mismatch (leaving the pending flag set); otherwise advance the
sequence number, clear the pending flag, drain the held queue through the
dispatcher and return the reply.  The returned state is the state reached
when the call returns or raises. -/
def invoke_command (s : SessionState) (method : String) (args : Msg)
    (stream : List StreamItem) :
    SessionState × Except PyError (Msg × List StreamItem) :=
  if s.command_pending then (s, Except.error PyError.busy)
  else
    let sentMsg := mkSendMsg s.user s.digest (setKey args "seq" (Value.int s.sequence)) method
    let s1 : SessionState := { s with command_pending := true, sent := s.sent ++ [sentMsg] }
    match recv_loop stream [] with
    | RecvOut.failed e => (s1, Except.error e)
    | RecvOut.found queue reply v rest =>
        if v = Value.int s1.sequence then
          let s2 : SessionState :=
            { s1 with sequence := s1.sequence + 1, command_pending := false }
          match drain s2 queue with
          | (s3, none) => (s3, Except.ok (reply, rest))
          | (s3, some e) => (s3, Except.error e)
        else (s1, Except.error PyError.outOfSequence)

/-- Protocol version advertised by this client (`HTSP_PROTO_VERSION`). -/
def HTSP_PROTO_VERSION : Int := 17

/-- Model of `hello()`: connect the socket when not yet connected, exchange a
hello command and store the reply message. -/
def hello (s : SessionState) (stream : List StreamItem) :
    SessionState × Except PyError (Msg × List StreamItem) :=
  let s0 := if s.connected then s else { s with connected := true }
  match invoke_command s0 "hello"
      [("htspversion", Value.int HTSP_PROTO_VERSION), ("clientname", Value.str s0.name)]
      stream with
  | (s1, Except.ok (m, rest)) => ({ s1 with hello_msg := some m }, Except.ok (m, rest))
  | (s1, Except.error e) => (s1, Except.error e)

/-- Model of `_check_connection()`: perform the hello handshake when the
socket is not yet connected. -/
def check_connection (s : SessionState) (stream : List StreamItem) :
    SessionState × Except PyError (List StreamItem) :=
  if s.connected then (s, Except.ok stream)
  else
    match hello s stream with
    | (s1, Except.ok (_, rest)) => (s1, Except.ok rest)
    | (s1, Except.error e) => (s1, Except.error e)

/-- Model of the `protocol_version` property: ensure a connection, then read
`htspversion` from the stored hello reply (a missing hello object raises
AttributeError in Python). -/
def protocol_version (s : SessionState) (stream : List StreamItem) :
    SessionState × Except PyError (Value × List StreamItem) :=
  match check_connection s stream with
  | (s1, Except.error e) => (s1, Except.error e)
  | (s1, Except.ok rest) =>
      match s1.hello_msg with
      | none => (s1, Except.error PyError.attributeError)
      | some hm =>
          match msgGet hm "htspversion" with
          | none => (s1, Except.error (PyError.keyError (Value.str "htspversion")))
          | some v => (s1, Except.ok (v, rest))

/-- Python 2 comparison `v < n` between a field value and an int: numbers
compare normally, any non-numeric value compares greater than every number. -/
def pyLt (v : Value) (n : Int) : Bool :=
  match v with
  | Value.int m => m < n
  | Value.str _ => false
  | Value.bin _ => false

/-- Model of `_checkProtocol(required_version)`: raise ProtocolVersionException
when the negotiated version is below the requirement. -/
def checkProtocol (s : SessionState) (required : Int) (stream : List StreamItem) :
    SessionState × Except PyError (List StreamItem) :=
  match protocol_version s stream with
  | (s1, Except.error e) => (s1, Except.error e)
  | (s1, Except.ok (v, rest)) =>
      if pyLt v required then (s1, Except.error PyError.protocolVersion)
      else (s1, Except.ok rest)

/-- Model of the `diskspace` property: check the connection, require protocol
version 3 and only then issue the getDiskSpace exchange. -/
def diskspace (s : SessionState) (stream : List StreamItem) :
    SessionState × Except PyError (Msg × List StreamItem) :=
  match check_connection s stream with
  | (s1, Except.error e) => (s1, Except.error e)
  | (s1, Except.ok rest) =>
      match checkProtocol s1 3 rest with
      | (s2, Except.error e) => (s2, Except.error e)
      | (s2, Except.ok rest2) => invoke_command s2 "getDiskSpace" [] rest2

/-- Receive-and-handle loop of `fetch_initial_data`: run until the initial
sync completed notification sets the flag.  No observer notification happens
in this loop. -/
def sync_loop : SessionState → List StreamItem → SessionState × Except PyError (List StreamItem)
  | s, [] => if s.initial_data then (s, Except.ok []) else (s, Except.error PyError.blocked)
  | s, item :: rest =>
      if s.initial_data then (s, Except.ok (item :: rest))
      else
        match item with
        | StreamItem.interrupt => (s, Except.error PyError.keyboardInterrupt)
        | StreamItem.msg m =>
            match handleMessage s m with
            | Except.ok (s1, _) => sync_loop s1 rest
            | Except.error e => (s, Except.error e)

/-- Model of `fetch_initial_data(events)`: reset the event map, ensure a
connection, issue enableAsyncMetadata and consume notifications until the
initial sync completes. -/
def fetch_initial_data (s : SessionState) (events : Bool) (stream : List StreamItem) :
    SessionState × Except PyError (List StreamItem) :=
  let s0 : SessionState := { s with events := if events then some [] else none }
  match check_connection s0 stream with
  | (s1, Except.error e) => (s1, Except.error e)
  | (s1, Except.ok rest) =>
      match invoke_command s1 "enableAsyncMetadata"
          [("epg", Value.int (if events then 1 else 0))] rest with
      | (s2, Except.error e) => (s2, Except.error e)
      | (s2, Except.ok (_, rest2)) => sync_loop s2 rest2

/-- Way the `monitor` call returned: normal return after an external
interrupt, normal return after printing a swallowed exception, an exception
that escaped `monitor` itself, or an exhausted model stream standing for a
receive that blocks forever. -/
inductive MonitorExit where
  | interrupted
  | errored : PyError → MonitorExit
  | raised : PyError → MonitorExit
  | blocked
  deriving DecidableEq, Repr

/-- Receive-dispatch-notify loop inside the try block of `monitor`. -/
def monitor_loop : SessionState → List StreamItem → SessionState × MonitorExit
  | s, [] => (s, MonitorExit.blocked)
  | s, StreamItem.interrupt :: _ => (s, MonitorExit.interrupted)
  | s, StreamItem.msg m :: rest =>
      match dispatch_and_notify s m with
      | (s1, none) => monitor_loop s1 rest
      | (s1, some e) => (s1, MonitorExit.errored e)

/-- Model of `monitor(callback)`: synchronize first when needed (exceptions
there escape the method, which has not yet registered the callback), register
the callback, then loop.  A KeyboardInterrupt ends the loop and removes the
callback (Python `list.remove` raises ValueError when it is absent); any
other exception is printed and swallowed, returning without removing the
callback. -/
def monitor (s : SessionState) (cb : Observer) (stream : List StreamItem) :
    SessionState × MonitorExit :=
  match (if s.initial_data then (s, Except.ok stream) else fetch_initial_data s false stream) with
  | (s1, Except.error e) => (s1, MonitorExit.raised e)
  | (s1, Except.ok rest) =>
      let s2 : SessionState := { s1 with callbacks := s1.callbacks ++ [cb] }
      match monitor_loop s2 rest with
      | (s3, MonitorExit.interrupted) =>
          if cb ∈ s3.callbacks then
            ({ s3 with callbacks := s3.callbacks.erase cb }, MonitorExit.interrupted)
          else (s3, MonitorExit.raised PyError.valueError)
      | (s3, ex) => (s3, ex)

/-! Helper lemmas about dictionaries and the merge. -/

theorem msgGet_setKey_same (m : Msg) (k : String) (v : Value) :
    msgGet (setKey m k v) k = some v := by
  induction m with
  | nil => simp [setKey, msgGet]
  | cons kv rest ih =>
      obtain ⟨k2, v2⟩ := kv
      by_cases h : k2 = k
      · simp [setKey, h, msgGet]
      · simp [setKey, h, msgGet, ih]

theorem msgGet_setKey_other (m : Msg) (k2 k : String) (v : Value) (h : k2 ≠ k) :
    msgGet (setKey m k2 v) k = msgGet m k := by
  induction m with
  | nil => simp [setKey, msgGet, h]
  | cons kv rest ih =>
      obtain ⟨k3, v3⟩ := kv
      by_cases h3 : k3 = k2
      · subst h3
        simp [setKey, msgGet, h, ih]
      · simp [setKey, h3, msgGet, ih]

theorem update_reponse_cons (old : Msg) (k2 : String) (v2 : Value) (rest : Msg) :
    update_reponse old ((k2, v2) :: rest) =
      update_reponse (if Value.truthy v2 then setKey old k2 v2 else old) rest := rfl

theorem update_reponse_absent (old new : Msg) (k : String) (h : msgGet new k = none) :
    msgGet (update_reponse old new) k = msgGet old k := by
  induction new generalizing old with
  | nil => rfl
  | cons kv rest ih =>
      obtain ⟨k2, v2⟩ := kv
      have hne : k2 ≠ k := by
        intro hc
        simp [msgGet, hc] at h
      have hrest : msgGet rest k = none := by
        simpa [msgGet, hne] using h
      rw [update_reponse_cons, ih _ hrest]
      by_cases ht : Value.truthy v2
      · simp [ht, msgGet_setKey_other old k2 k v2 hne]
      · simp [ht]

theorem msgGet_eq_none_of_not_mem_keys (m : Msg) (k : String)
    (h : k ∉ m.map Prod.fst) : msgGet m k = none := by
  induction m with
  | nil => rfl
  | cons kv rest ih =>
      obtain ⟨k2, v2⟩ := kv
      simp only [List.map_cons, List.mem_cons] at h
      push_neg at h
      have : k2 ≠ k := fun hc => h.1 hc.symm
      simp [msgGet, this, ih h.2]

theorem mkSendMsg_get_seq (user digest : Option String) (args : Msg) (method : String)
    (v : Value) :
    msgGet (mkSendMsg user digest (setKey args "seq" v) method) "seq" = some v := by
  have h1 : msgGet (setKey (setKey args "seq" v) "method" (Value.str method)) "seq" = some v := by
    rw [msgGet_setKey_other _ _ _ _ (by decide), msgGet_setKey_same]
  unfold mkSendMsg
  cases user with
  | none =>
      cases digest with
      | none => simpa using h1
      | some d =>
          by_cases hd : d = ""
          · simpa [hd] using h1
          · simpa [hd, msgGet_setKey_other _ "digest" "seq" _ (by decide)] using h1
  | some u =>
      by_cases hu : u = ""
      · cases digest with
        | none => simpa [hu] using h1
        | some d =>
            by_cases hd : d = ""
            · simpa [hu, hd] using h1
            · simpa [hu, hd, msgGet_setKey_other _ "digest" "seq" _ (by decide)] using h1
      · cases digest with
        | none => simpa [hu, msgGet_setKey_other _ "username" "seq" _ (by decide)] using h1
        | some d =>
            by_cases hd : d = ""
            · simpa [hu, hd, msgGet_setKey_other _ "username" "seq" _ (by decide)] using h1
            · simpa [hu, hd, msgGet_setKey_other _ "digest" "seq" _ (by decide),
                msgGet_setKey_other _ "username" "seq" _ (by decide)] using h1

/-! Invariants of the handlers, the notifier and the loops. -/

theorem handleMessage_inv (s : SessionState) (m : Msg) (s1 : SessionState) (n : Option Msg)
    (h : handleMessage s m = Except.ok (s1, n)) :
    s1.sequence = s.sequence ∧ s1.command_pending = s.command_pending ∧
    s1.sent = s.sent ∧ s1.callbacks = s.callbacks ∧ s1.notify_log = s.notify_log ∧
    (s.initial_data = true → s1.initial_data = true) := by
  unfold handleMessage handle_initialSyncCompleted handle_tagAdd handle_tagUpdate
    handle_channelAdd handle_channelUpdate handle_eventAdd handle_eventDelete
    handle_dvrEntryAdd handle_dvrEntryDelete handle_dvrEntryUpdate
    handle_autorecEntryAdd handle_autorecEntryUpdate at h
  repeat' split at h
  all_goals cases h
  all_goals simp

theorem notify_inv (s : SessionState) (m : Msg) (n : Option Msg) (s1 : SessionState)
    (h : notify s m n = Except.ok s1) :
    s1.sequence = s.sequence ∧ s1.command_pending = s.command_pending ∧
    s1.sent = s.sent ∧ s1.initial_data = s.initial_data := by
  unfold notify at h
  split at h
  · cases h
  · cases h
    simp

theorem dispatch_inv (s : SessionState) (m : Msg) (s1 : SessionState) (e : Option PyError)
    (h : dispatch_and_notify s m = (s1, e)) :
    s1.sequence = s.sequence ∧ s1.command_pending = s.command_pending ∧
    s1.sent = s.sent ∧ (s.initial_data = true → s1.initial_data = true) := by
  cases hh : handleMessage s m with
  | error e2 =>
      have hd : dispatch_and_notify s m = (s, some e2) := by
        unfold dispatch_and_notify
        rw [hh]
      rw [hd] at h
      cases h
      exact ⟨rfl, rfl, rfl, fun hi => hi⟩
  | ok p =>
      obtain ⟨s2, n2⟩ := p
      have hf := handleMessage_inv s m s2 n2 hh
      cases hn : notify s2 m n2 with
      | error e2 =>
          have hd : dispatch_and_notify s m = (s2, some e2) := by
            unfold dispatch_and_notify
            rw [hh]
            simp [hn]
          rw [hd] at h
          cases h
          exact ⟨hf.1, hf.2.1, hf.2.2.1, hf.2.2.2.2.2⟩
      | ok s3 =>
          have hd : dispatch_and_notify s m = (s3, none) := by
            unfold dispatch_and_notify
            rw [hh]
            simp [hn]
          rw [hd] at h
          cases h
          have hg := notify_inv s2 m n2 _ hn
          refine ⟨hg.1.trans hf.1, hg.2.1.trans hf.2.1, hg.2.2.1.trans hf.2.2.1, ?_⟩
          intro hi
          rw [hg.2.2.2]
          exact hf.2.2.2.2.2 hi

theorem drain_inv (queue : List Msg) (s s1 : SessionState) (e : Option PyError)
    (h : drain s queue = (s1, e)) :
    s1.sequence = s.sequence ∧ s1.command_pending = s.command_pending ∧ s1.sent = s.sent := by
  induction queue generalizing s with
  | nil =>
      cases h
      exact ⟨rfl, rfl, rfl⟩
  | cons m ms ih =>
      unfold drain at h
      cases hd : dispatch_and_notify s m with
      | mk s2 e2 =>
          have hf := dispatch_inv s m s2 e2 hd
          rw [hd] at h
          cases e2 with
          | none =>
              have := ih s2 h
              exact ⟨this.1.trans hf.1, this.2.1.trans hf.2.1, this.2.2.trans hf.2.2.1⟩
          | some e3 =>
              cases h
              exact ⟨hf.1, hf.2.1, hf.2.2.1⟩

theorem notifyLoopF_noop (fuel : Nat) (cbs : List Observer) (i : Nat) (verb : Value)
    (n : Option Msg) (log : List NotifyRecord)
    (hno : ∀ o ∈ cbs, o.action = ObsAction.noop)
    (hfuel : cbs.length ≤ fuel + i) :
    notifyLoopF fuel cbs i verb n log =
      (cbs, log ++ (cbs.drop i).map (fun o => ⟨o.id, verb, n⟩)) := by
  induction fuel generalizing i log with
  | zero =>
      have hle : cbs.length ≤ i := by omega
      have hdrop : cbs.drop i = [] := List.drop_eq_nil_of_le hle
      simp [notifyLoopF, hdrop]
  | succ fuel ih =>
      by_cases h : i < cbs.length
      · have ho : (cbs.get ⟨i, h⟩).action = ObsAction.noop :=
          hno _ (List.get_mem cbs i h)
        rw [notifyLoopF]
        rw [dif_pos h]
        simp only [ho]
        rw [if_neg (show ¬ (ObsAction.noop = ObsAction.removeSelf) by decide)]
        have hstep := ih (i + 1) (log ++ [⟨(cbs.get ⟨i, h⟩).id, verb, n⟩]) (by omega)
        rw [hstep]
        have hdrop : cbs.drop i = cbs.get ⟨i, h⟩ :: cbs.drop (i + 1) := by
          simpa using List.drop_eq_getElem_cons h
        rw [hdrop]
        simp only [List.map_cons, List.append_assoc, List.singleton_append, List.get_eq_getElem]
      · have hle : cbs.length ≤ i := Nat.not_lt.mp h
        have hdrop : cbs.drop i = [] := List.drop_eq_nil_of_le hle
        rw [notifyLoopF, dif_neg h]
        simp [hdrop]

theorem notify_noop (s : SessionState) (m : Msg) (n : Option Msg) (verb : Value)
    (hm : msgGet m "method" = some verb)
    (hno : ∀ o ∈ s.callbacks, o.action = ObsAction.noop) :
    notify s m n = Except.ok { s with
      notify_log := s.notify_log ++ s.callbacks.map (fun o => ⟨o.id, verb, n⟩) } := by
  have hL := notifyLoopF_noop (s.callbacks.length + 1) s.callbacks 0 verb n
    s.notify_log hno (by omega)
  simp only [notify, hm, hL, List.drop_zero]

theorem notify_callbacks (s : SessionState) (m : Msg) (n : Option Msg) (s1 : SessionState)
    (hno : ∀ o ∈ s.callbacks, o.action = ObsAction.noop)
    (h : notify s m n = Except.ok s1) :
    s1.callbacks = s.callbacks := by
  cases hm : msgGet m "method" with
  | none =>
      unfold notify at h
      rw [hm] at h
      cases h
  | some verb =>
      have hL := notifyLoopF_noop (s.callbacks.length + 1) s.callbacks 0 verb n
        s.notify_log hno (by omega)
      simp only [notify, hm, hL, List.drop_zero] at h
      cases h
      rfl

theorem dispatch_noop_callbacks (s : SessionState) (m : Msg) (s1 : SessionState)
    (e : Option PyError)
    (hno : ∀ o ∈ s.callbacks, o.action = ObsAction.noop)
    (h : dispatch_and_notify s m = (s1, e)) :
    s1.callbacks = s.callbacks := by
  cases hh : handleMessage s m with
  | error e2 =>
      have hd : dispatch_and_notify s m = (s, some e2) := by
        unfold dispatch_and_notify
        rw [hh]
      rw [hd] at h
      cases h
      rfl
  | ok p =>
      obtain ⟨s2, n2⟩ := p
      have hf := handleMessage_inv s m s2 n2 hh
      have hno2 : ∀ o ∈ s2.callbacks, o.action = ObsAction.noop := by
        rw [hf.2.2.2.1]
        exact hno
      cases hn : notify s2 m n2 with
      | error e2 =>
          have hd : dispatch_and_notify s m = (s2, some e2) := by
            unfold dispatch_and_notify
            rw [hh]
            simp [hn]
          rw [hd] at h
          cases h
          exact hf.2.2.2.1
      | ok s3 =>
          have hd : dispatch_and_notify s m = (s3, none) := by
            unfold dispatch_and_notify
            rw [hh]
            simp [hn]
          rw [hd] at h
          cases h
          have := notify_callbacks s2 m n2 _ hno2 hn
          rw [this]
          exact hf.2.2.2.1

theorem monitor_loop_inv (stream : List StreamItem) (s s1 : SessionState) (ex : MonitorExit)
    (hno : ∀ o ∈ s.callbacks, o.action = ObsAction.noop)
    (h : monitor_loop s stream = (s1, ex)) :
    s1.callbacks = s.callbacks ∧ (s.initial_data = true → s1.initial_data = true) := by
  induction stream generalizing s with
  | nil =>
      cases h
      exact ⟨rfl, fun hi => hi⟩
  | cons item rest ih =>
      cases item with
      | interrupt =>
          cases h
          exact ⟨rfl, fun hi => hi⟩
      | msg m =>
          unfold monitor_loop at h
          cases hd : dispatch_and_notify s m with
          | mk s2 e2 =>
              have hc := dispatch_noop_callbacks s m s2 e2 hno hd
              have hi2 := dispatch_inv s m s2 e2 hd
              rw [hd] at h
              cases e2 with
              | none =>
                  have hno2 : ∀ o ∈ s2.callbacks, o.action = ObsAction.noop := by
                    rw [hc]
                    exact hno
                  have := ih s2 hno2 h
                  exact ⟨this.1.trans hc, fun hi => this.2 (hi2.2.2.2 hi)⟩
              | some e3 =>
                  cases h
                  exact ⟨hc, hi2.2.2.2⟩

theorem recv_loop_spec (pushes : List Msg) (reply : Msg) (v : Value)
    (rest : List StreamItem) (acc : List Msg)
    (hp : ∀ p ∈ pushes, msgGet p "seq" = none)
    (hr : msgGet reply "seq" = some v) :
    recv_loop (pushes.map StreamItem.msg ++ StreamItem.msg reply :: rest) acc =
      RecvOut.found (acc ++ pushes) reply v rest := by
  induction pushes generalizing acc with
  | nil => simp [recv_loop, hr]
  | cons p ps ih =>
      have hp0 : msgGet p "seq" = none := hp p (by simp)
      have hps : ∀ q ∈ ps, msgGet q "seq" = none := fun q hq => hp q (by simp [hq])
      simp only [List.map_cons, List.cons_append]
      rw [recv_loop]
      rw [hp0]
      rw [ih (acc ++ [p]) hps]
      simp

/-! Claim theorems. -/

/-- C2: applying an update notification to a cached record alters only the
fields carried by the update payload: every field absent from the update
keeps its previously known value; concretely, merging the update
(id 1, title X) into the stored record (id 1, title A, retention 5) yields a
record with title X and retention 5. -/
theorem C2_partial_update_preserves_absent_fields :
    (∀ (old new : Msg) (k : String), msgGet new k = none →
        msgGet (update_reponse old new) k = msgGet old k) ∧
    msgGet (update_reponse
        [("id", Value.int 1), ("title", Value.str "A"), ("retention", Value.int 5)]
        [("id", Value.int 1), ("title", Value.str "X")]) "title" = some (Value.str "X") ∧
    msgGet (update_reponse
        [("id", Value.int 1), ("title", Value.str "A"), ("retention", Value.int 5)]
        [("id", Value.int 1), ("title", Value.str "X")]) "retention" = some (Value.int 5) := by
  refine ⟨fun old new k h => update_reponse_absent old new k h, ?_, ?_⟩ <;> decide

/-- C2 witness: the preservation statement applied at a concrete input. -/
theorem C2_witness :
    msgGet (update_reponse [("a", Value.int 1)] [("b", Value.int 2)]) "a" =
      msgGet [("a", Value.int 1)] "a" :=
  C2_partial_update_preserves_absent_fields.1 [("a", Value.int 1)] [("b", Value.int 2)] "a" rfl

/-- C6: invoking the correlator while a command is already pending fails with
the Busy error, sends nothing and leaves the whole session state, in
particular the sequence counter, unchanged. -/
theorem C6_busy_leaves_state_unchanged (s : SessionState) (method : String) (args : Msg)
    (stream : List StreamItem) (hpend : s.command_pending = true) :
    invoke_command s method args stream = (s, Except.error PyError.busy) ∧
    (invoke_command s method args stream).1.sent = s.sent ∧
    (invoke_command s method args stream).1.sequence = s.sequence := by
  have h : invoke_command s method args stream = (s, Except.error PyError.busy) := by
    unfold invoke_command
    rw [if_pos hpend]
  exact ⟨h, by rw [h], by rw [h]⟩

/-- C6 witness: a concrete busy invocation. -/
theorem C6_witness :
    invoke_command { initSession "c" with command_pending := true } "getSysTime" [] [] =
      ({ initSession "c" with command_pending := true }, Except.error PyError.busy) :=
  (C6_busy_leaves_state_unchanged { initSession "c" with command_pending := true }
    "getSysTime" [] [] rfl).1

/-- C7: a dvr update notification whose identifier is absent from the cache
raises the KeyError (a LookupError subclass) carrying that identifier, which
propagates out of the dispatcher with the state unchanged, while a dvr delete
notification whose identifier is absent returns normally and leaves the whole
state, in particular the cache, unchanged. -/
theorem C7_update_raises_delete_tolerated (s : SessionState) (mUpd mDel : Msg)
    (idU idD : Value)
    (hU : msgGet mUpd "id" = some idU)
    (hUm : msgGet mUpd "method" = some (Value.str "dvrEntryUpdate"))
    (hUabs : lookupAssoc s.dvr_entries idU = none)
    (hD : msgGet mDel "id" = some idD)
    (hDabs : lookupAssoc s.dvr_entries idD = none) :
    handle_dvrEntryUpdate s mUpd = Except.error (PyError.keyError idU) ∧
    dispatch_and_notify s mUpd = (s, some (PyError.keyError idU)) ∧
    handle_dvrEntryDelete s mDel = Except.ok (s, none) := by
  have h1 : handle_dvrEntryUpdate s mUpd = Except.error (PyError.keyError idU) := by
    unfold handle_dvrEntryUpdate
    rw [hU]
    simp [hUabs]
  refine ⟨h1, ?_, ?_⟩
  · have h2 : handleMessage s mUpd = Except.error (PyError.keyError idU) := by
      unfold handleMessage
      rw [hUm]
      exact h1
    unfold dispatch_and_notify
    rw [h2]
  · unfold handle_dvrEntryDelete
    rw [hD]
    simp [hDabs]

/-- C7 witness: concrete update and delete messages against an empty cache. -/
theorem C7_witness :
    handle_dvrEntryUpdate (initSession "c")
        [("method", Value.str "dvrEntryUpdate"), ("id", Value.int 9)] =
      Except.error (PyError.keyError (Value.int 9)) ∧
    handle_dvrEntryDelete (initSession "c")
        [("method", Value.str "dvrEntryDelete"), ("id", Value.int 9)] =
      Except.ok (initSession "c", none) := by
  have h := C7_update_raises_delete_tolerated (initSession "c")
    [("method", Value.str "dvrEntryUpdate"), ("id", Value.int 9)]
    [("method", Value.str "dvrEntryDelete"), ("id", Value.int 9)]
    (Value.int 9) (Value.int 9) rfl rfl rfl rfl rfl
  exact ⟨h.1, h.2.2⟩

/-- C9: requesting disk space on a connected session whose negotiated
protocol version is below 3 fails with the ProtocolVersionException and
returns the state unchanged: in particular nothing is appended to the log of
sent messages, so the getDiskSpace request is never sent. -/
theorem C9_diskspace_version_gate (s : SessionState) (stream : List StreamItem)
    (hm : Msg) (v : Int)
    (hconn : s.connected = true)
    (hhello : s.hello_msg = some hm)
    (hver : msgGet hm "htspversion" = some (Value.int v))
    (hlt : v < 3) :
    diskspace s stream = (s, Except.error PyError.protocolVersion) ∧
    (diskspace s stream).1.sent = s.sent := by
  have h : diskspace s stream = (s, Except.error PyError.protocolVersion) := by
    unfold diskspace check_connection checkProtocol protocol_version check_connection
    rw [if_pos hconn]
    simp only [hconn, if_pos, hhello, hver]
    have : pyLt (Value.int v) 3 = true := by
      simp [pyLt, hlt]
    simp [this]
  exact ⟨h, by rw [h]⟩

/-- C9 witness: a connected session that negotiated version 2. -/
theorem C9_witness :
    diskspace { initSession "c" with
        connected := true
        hello_msg := some [("htspversion", Value.int 2)] } [] =
      ({ initSession "c" with
        connected := true
        hello_msg := some [("htspversion", Value.int 2)] },
       Except.error PyError.protocolVersion) :=
  (C9_diskspace_version_gate _ [] [("htspversion", Value.int 2)] 2 rfl rfl rfl
    (by norm_num)).1

theorem invoke_command_found (s : SessionState) (method : String) (args : Msg)
    (stream : List StreamItem) (queue : List Msg) (reply : Msg) (v : Value)
    (rest : List StreamItem)
    (hpend : s.command_pending = false)
    (hrecv : recv_loop stream [] = RecvOut.found queue reply v rest) :
    invoke_command s method args stream =
      (if v = Value.int s.sequence then
        match drain { s with
            command_pending := false
            sequence := s.sequence + 1
            sent := s.sent ++
              [mkSendMsg s.user s.digest (setKey args "seq" (Value.int s.sequence)) method] }
          queue with
        | (s3, none) => (s3, Except.ok (reply, rest))
        | (s3, some e) => (s3, Except.error e)
      else
        ({ s with
            command_pending := true
            sent := s.sent ++
              [mkSendMsg s.user s.digest (setKey args "seq" (Value.int s.sequence)) method] },
         Except.error PyError.outOfSequence)) := by
  unfold invoke_command
  rw [if_neg (by simp [hpend]), hrecv]

theorem invoke_command_recv_failed (s : SessionState) (method : String) (args : Msg)
    (stream : List StreamItem) (e : PyError)
    (hpend : s.command_pending = false)
    (hrecv : recv_loop stream [] = RecvOut.failed e) :
    invoke_command s method args stream =
      ({ s with
          command_pending := true
          sent := s.sent ++
            [mkSendMsg s.user s.digest (setKey args "seq" (Value.int s.sequence)) method] },
       Except.error e) := by
  unfold invoke_command
  rw [if_neg (by simp [hpend]), hrecv]

/-- C1: during a pending request every received message without a reply
sequence tag, up to the matching reply, is held in arrival order and then
routed through the dispatcher (cache mutation via the handler, then observer
notification) in exactly that order, strictly before the reply is handed
back: the invocation result equals draining the held messages from the
post-send state and only then returning the reply. -/
theorem C1_held_messages_dispatched_before_reply (s : SessionState) (method : String)
    (args : Msg) (pushes : List Msg) (reply : Msg) (rest : List StreamItem)
    (hpend : s.command_pending = false)
    (hp : ∀ p ∈ pushes, msgGet p "seq" = none)
    (hr : msgGet reply "seq" = some (Value.int s.sequence)) :
    invoke_command s method args (pushes.map StreamItem.msg ++ StreamItem.msg reply :: rest) =
      (match drain { s with
          command_pending := false
          sequence := s.sequence + 1
          sent := s.sent ++
            [mkSendMsg s.user s.digest (setKey args "seq" (Value.int s.sequence)) method] }
        pushes with
      | (s3, none) => (s3, Except.ok (reply, rest))
      | (s3, some e) => (s3, Except.error e)) := by
  have hrecv := recv_loop_spec pushes reply (Value.int s.sequence) rest [] hp hr
  rw [invoke_command_found s method args _ ([] ++ pushes) reply (Value.int s.sequence) rest
    hpend hrecv]
  rw [if_pos rfl]
  simp only [List.nil_append]

/-- C1 witness: a push notification arriving before the reply is applied and
the reply is then returned. -/
theorem C1_witness :
    (invoke_command (initSession "c") "addDvrEntry" []
        ([[("method", Value.str "dvrEntryAdd"), ("id", Value.int 7)]].map StreamItem.msg ++
          StreamItem.msg [("seq", Value.int 0)] :: [])).2 =
      Except.ok ([("seq", Value.int 0)], []) := by
  have h := C1_held_messages_dispatched_before_reply (initSession "c") "addDvrEntry" []
    [[("method", Value.str "dvrEntryAdd"), ("id", Value.int 7)]]
    [("seq", Value.int 0)] [] rfl (by decide) rfl
  rw [h]
  rfl

/-- C4 counterexample: the autorec update carrying the falsy value 0 for the
enabled flag (the unset/disable convention) is silently dropped by the merge:
the cached record keeps enabled equal to 1 instead of being cleared. -/
theorem C4_counterexample :
    (match handle_autorecEntryUpdate
        { initSession "s" with
          auto_record_entries := [(Value.str "r1",
            [("id", Value.str "r1"), ("enabled", Value.int 1), ("retention", Value.int 5)])] }
        [("method", Value.str "autorecEntryUpdate"), ("id", Value.str "r1"),
          ("enabled", Value.int 0)] with
      | Except.ok (_, some merged) => msgGet merged "enabled"
      | _ => none) = some (Value.int 1) := by decide

/-- C4 amended: the update merge unconditionally ignores falsy incoming
field values: whenever the incoming message carries a falsy value for a field
(the keys of a message being unique, as in a Python dict), the previously
known value of that field is left unchanged, so unset-by-falsy-value updates
are silently dropped. -/
theorem C4_falsy_update_values_ignored (old new : Msg) (k : String) (v : Value)
    (hnd : (new.map Prod.fst).Nodup)
    (hv : msgGet new k = some v) (hf : Value.truthy v = false) :
    msgGet (update_reponse old new) k = msgGet old k := by
  induction new generalizing old with
  | nil => cases hv
  | cons kv rest ih =>
      obtain ⟨k2, v2⟩ := kv
      rw [update_reponse_cons]
      by_cases hk : k2 = k
      · subst hk
        have hv2 : v2 = v := by simpa [msgGet] using hv
        subst hv2
        rw [if_neg (by simp [hf])]
        have hknot : k2 ∉ rest.map Prod.fst := by
          simpa using hnd.not_mem
        exact update_reponse_absent old rest k2
          (msgGet_eq_none_of_not_mem_keys rest k2 hknot)
      · have hvrest : msgGet rest k = some v := by
          simpa [msgGet, hk] using hv
        have hnd2 : (rest.map Prod.fst).Nodup := by
          simpa using hnd.of_cons
        by_cases ht : Value.truthy v2
        · rw [if_pos ht, ih (setKey old k2 v2) hnd2 hvrest]
          exact msgGet_setKey_other old k2 k v2 hk
        · rw [if_neg ht]
          exact ih old hnd2 hvrest

/-- C4 witness: the amended statement at a concrete falsy update. -/
theorem C4_witness :
    msgGet (update_reponse [("enabled", Value.int 1)] [("enabled", Value.int 0)]) "enabled" =
      msgGet [("enabled", Value.int 1)] "enabled" :=
  C4_falsy_update_values_ignored [("enabled", Value.int 1)] [("enabled", Value.int 0)]
    "enabled" (Value.int 0) (by simp) (by decide) (by decide)

/-- C8 counterexample: with two registered observers, the first removing
itself from within its callback, the dispatch of one notification never
invokes the second observer at all, so it is not the case that every other
registered observer is invoked exactly once. -/
theorem C8_counterexample :
    (match notify
        { initSession "s" with
          callbacks := [⟨0, ObsAction.removeSelf⟩, ⟨1, ObsAction.noop⟩] }
        [("method", Value.str "dvrEntryAdd")] none with
      | Except.ok s1 => (s1.notify_log.filter (fun r => r.obs == 1)).length
      | Except.error _ => 37) = 0 := by decide

/-- C8 amended: after a cache mutation every currently registered observer is
invoked with the (verb, resulting entity) pair in registration order provided
no observer unregisters during the dispatch; an observer that removes itself
from within its callback causes the observer immediately following it to be
skipped for that dispatch (as the counterexample shows), so removal from
within a callback is not safe for the remaining observers. -/
theorem C8_observers_in_registration_order (s : SessionState) (m : Msg)
    (n : Option Msg) (verb : Value)
    (hm : msgGet m "method" = some verb)
    (hno : ∀ o ∈ s.callbacks, o.action = ObsAction.noop) :
    notify s m n = Except.ok { s with
      notify_log := s.notify_log ++ s.callbacks.map (fun o => ⟨o.id, verb, n⟩) } :=
  notify_noop s m n verb hm hno

/-- C8 witness: two plain observers are both invoked once, in registration
order. -/
theorem C8_witness :
    notify { initSession "s" with callbacks := [⟨0, ObsAction.noop⟩, ⟨1, ObsAction.noop⟩] }
        [("method", Value.str "tagAdd")] none =
      Except.ok { initSession "s" with
        callbacks := [⟨0, ObsAction.noop⟩, ⟨1, ObsAction.noop⟩]
        notify_log := [⟨0, Value.str "tagAdd", none⟩, ⟨1, Value.str "tagAdd", none⟩] } := by
  have h := C8_observers_in_registration_order
    { initSession "s" with callbacks := [⟨0, ObsAction.noop⟩, ⟨1, ObsAction.noop⟩] }
    [("method", Value.str "tagAdd")] none (Value.str "tagAdd") rfl (by decide)
  rw [h]
  rfl

/-- C3: the sequence counter starts at 0 in a fresh session, every completed
exchange tags its request with the current counter value (the send log grows
by exactly the tagged request) and advances the counter by exactly one,
whatever push notifications were interleaved before the reply; tags are
therefore strictly increasing by one per completed exchange and never
reused. -/
theorem C3_sequence_monotonic (s t : SessionState) (method : String) (args reply : Msg)
    (stream rest : List StreamItem)
    (hok : invoke_command s method args stream = (t, Except.ok (reply, rest))) :
    (∀ nm, (initSession nm).sequence = 0) ∧
    t.sequence = s.sequence + 1 ∧
    t.sent = s.sent ++
      [mkSendMsg s.user s.digest (setKey args "seq" (Value.int s.sequence)) method] ∧
    msgGet (mkSendMsg s.user s.digest (setKey args "seq" (Value.int s.sequence)) method)
        "seq" = some (Value.int s.sequence) := by
  refine ⟨fun nm => rfl, ?_⟩
  cases hpendb : s.command_pending with
  | true =>
      have hbusy : invoke_command s method args stream = (s, Except.error PyError.busy) := by
        unfold invoke_command
        rw [if_pos hpendb]
      rw [hbusy] at hok
      simp at hok
  | false =>
      cases hrecv : recv_loop stream [] with
      | failed e =>
          rw [invoke_command_recv_failed s method args stream e hpendb hrecv] at hok
          simp at hok
      | found queue r2 v rest2 =>
          rw [invoke_command_found s method args stream queue r2 v rest2 hpendb hrecv] at hok
          by_cases hv : v = Value.int s.sequence
          · rw [if_pos hv] at hok
            rcases hdrain : drain { s with
                command_pending := false
                sequence := s.sequence + 1
                sent := s.sent ++
                  [mkSendMsg s.user s.digest (setKey args "seq" (Value.int s.sequence)) method] }
              queue with ⟨s3, e3⟩
            rw [hdrain] at hok
            cases e3 with
            | none =>
                simp only [] at hok
                have hinv := drain_inv queue _ s3 none hdrain
                have ht : s3 = t := by
                  have := congrArg Prod.fst hok
                  simpa using this
                subst ht
                refine ⟨?_, ?_, mkSendMsg_get_seq s.user s.digest args method
                  (Value.int s.sequence)⟩
                · exact hinv.1
                · exact hinv.2.2
            | some e4 =>
                simp at hok
          · rw [if_neg hv] at hok
            simp at hok

/-- C3 witness: a completed exchange on a fresh session advances the counter
from 0 to 1. -/
theorem C3_witness :
    ((invoke_command (initSession "c") "getSysTime" []
        [StreamItem.msg [("seq", Value.int 0)]]).1).sequence =
      (initSession "c").sequence + 1 := by
  have h := C3_sequence_monotonic (initSession "c")
    (invoke_command (initSession "c") "getSysTime" []
      [StreamItem.msg [("seq", Value.int 0)]]).1
    "getSysTime" [] [("seq", Value.int 0)] [StreamItem.msg [("seq", Value.int 0)]] [] rfl
  exact h.2.1

/-- C5: when the first sequence-tagged message received during an invocation
carries a tag different from the outstanding sequence number, the invocation
fails with the out-of-sequence error while the pending flag is left set, and
afterwards every further invocation on that session fails with the Busy error
and leaves the state unchanged, so no further message is ever sent. -/
theorem C5_out_of_sequence_poisons_session (s : SessionState) (method : String)
    (args : Msg) (stream : List StreamItem) (queue : List Msg) (reply : Msg)
    (v : Value) (rest : List StreamItem)
    (hpend : s.command_pending = false)
    (hrecv : recv_loop stream [] = RecvOut.found queue reply v rest)
    (hv : v ≠ Value.int s.sequence) :
    invoke_command s method args stream =
      ({ s with
          command_pending := true
          sent := s.sent ++
            [mkSendMsg s.user s.digest (setKey args "seq" (Value.int s.sequence)) method] },
       Except.error PyError.outOfSequence) ∧
    (∀ (method2 : String) (args2 : Msg) (stream2 : List StreamItem),
      invoke_command (invoke_command s method args stream).1 method2 args2 stream2 =
        ((invoke_command s method args stream).1, Except.error PyError.busy)) := by
  have h1 : invoke_command s method args stream =
      ({ s with
          command_pending := true
          sent := s.sent ++
            [mkSendMsg s.user s.digest (setKey args "seq" (Value.int s.sequence)) method] },
       Except.error PyError.outOfSequence) := by
    rw [invoke_command_found s method args stream queue reply v rest hpend hrecv]
    rw [if_neg hv]
  refine ⟨h1, fun method2 args2 stream2 => ?_⟩
  rw [h1]
  unfold invoke_command
  rw [if_pos rfl]

/-- C5 witness: a reply tagged 5 against outstanding sequence number 0
poisons the session and a later invocation fails with Busy. -/
theorem C5_witness :
    (invoke_command (initSession "c") "getSysTime" []
        [StreamItem.msg [("seq", Value.int 5)]]).2 =
      Except.error PyError.outOfSequence ∧
    (invoke_command (invoke_command (initSession "c") "getSysTime" []
        [StreamItem.msg [("seq", Value.int 5)]]).1 "hello" [] []).2 =
      Except.error PyError.busy := by
  have h := C5_out_of_sequence_poisons_session (initSession "c") "getSysTime" []
    [StreamItem.msg [("seq", Value.int 5)]] [] [("seq", Value.int 5)] (Value.int 5) []
    rfl rfl (by decide)
  refine ⟨by rw [h.1], ?_⟩
  rw [h.2 "hello" [] []]

/-- C10: when the monitor loop ends with any exception other than the
keyboard interrupt, `monitor` returns normally without re-raising and without
removing the callback it registered: the callback list still ends with that
callback.  A later `monitor` call with the same callback then registers it a
second time, as witnessed by the second loop starting from a callback list
carrying the callback twice. -/
theorem C10_monitor_error_keeps_callback (s : SessionState) (cb : Observer)
    (stream stream2 : List StreamItem) (s3 s4 : SessionState) (e e2 : PyError)
    (hinit : s.initial_data = true)
    (hno : ∀ o ∈ s.callbacks ++ [cb], o.action = ObsAction.noop)
    (hloop : monitor_loop { s with callbacks := s.callbacks ++ [cb] } stream =
      (s3, MonitorExit.errored e))
    (hloop2 : monitor_loop { s3 with callbacks := s3.callbacks ++ [cb] } stream2 =
      (s4, MonitorExit.errored e2)) :
    monitor s cb stream = (s3, MonitorExit.errored e) ∧
    s3.callbacks = s.callbacks ++ [cb] ∧
    cb ∈ s3.callbacks ∧
    monitor s3 cb stream2 = (s4, MonitorExit.errored e2) ∧
    s4.callbacks = (s.callbacks ++ [cb]) ++ [cb] := by
  have hinv := monitor_loop_inv stream { s with callbacks := s.callbacks ++ [cb] } s3
    (MonitorExit.errored e) hno hloop
  have hcb : s3.callbacks = s.callbacks ++ [cb] := hinv.1
  have hinit3 : s3.initial_data = true := hinv.2 hinit
  have hmon : monitor s cb stream = (s3, MonitorExit.errored e) := by
    unfold monitor
    rw [if_pos hinit]
    simp only [hloop]
  have hno2 : ∀ o ∈ s3.callbacks ++ [cb], o.action = ObsAction.noop := by
    rw [hcb]
    intro o ho
    rcases List.mem_append.mp ho with h2 | h2
    · exact hno o h2
    · exact hno o (List.mem_append.mpr (Or.inr h2))
  have hinv2 := monitor_loop_inv stream2 { s3 with callbacks := s3.callbacks ++ [cb] } s4
    (MonitorExit.errored e2) hno2 hloop2
  have hmon2 : monitor s3 cb stream2 = (s4, MonitorExit.errored e2) := by
    unfold monitor
    rw [if_pos hinit3]
    simp only [hloop2]
  refine ⟨hmon, hcb, ?_, hmon2, ?_⟩
  · rw [hcb]
    simp
  · rw [hinv2.1, hcb]

/-- C10 witness: a message with a non-string method value makes the dispatch
raise TypeError, ending the loop; the callback registered by `monitor` stays
registered and a second call registers it twice. -/
theorem C10_witness :
    monitor { initSession "m" with initial_data := true } ⟨0, ObsAction.noop⟩
        [StreamItem.msg [("method", Value.int 5)]] =
      ({ initSession "m" with initial_data := true, callbacks := [⟨0, ObsAction.noop⟩] },
        MonitorExit.errored PyError.typeError) ∧
    monitor { initSession "m" with initial_data := true, callbacks := [⟨0, ObsAction.noop⟩] }
        ⟨0, ObsAction.noop⟩ [StreamItem.msg [("method", Value.int 5)]] =
      ({ initSession "m" with
          initial_data := true
          callbacks := [⟨0, ObsAction.noop⟩, ⟨0, ObsAction.noop⟩] },
        MonitorExit.errored PyError.typeError) := by
  have h := C10_monitor_error_keeps_callback { initSession "m" with initial_data := true }
    ⟨0, ObsAction.noop⟩ [StreamItem.msg [("method", Value.int 5)]]
    [StreamItem.msg [("method", Value.int 5)]]
    { initSession "m" with initial_data := true, callbacks := [⟨0, ObsAction.noop⟩] }
    { initSession "m" with
        initial_data := true
        callbacks := [⟨0, ObsAction.noop⟩, ⟨0, ObsAction.noop⟩] }
    PyError.typeError PyError.typeError rfl (by decide) (by decide) (by decide)
  exact ⟨h.1, h.2.2.2.1⟩
